import Mathlib

/-!
Verification of the `fastapi-example` repository's database-access and
authentication core against its natural-language specification.

Each Python function under scrutiny is shallowly embedded as a Lean
definition (pure functions become Lean functions, stateful code becomes
explicit state passing, fallible code returns `Except`/`Option`), and the
spec claims are settled as theorems about those definitions.
-/

set_option maxHeartbeats 1000000

namespace FastapiExample
/-! ### Pagination envelope (`AsyncMySQLHandler.fetch_paginated`) -/

/-- The pagination envelope returned by `fetch_paginated`
(the Python dict with keys items/total/page/page_size/total_pages). -/
structure Paginated (Row : Type) where
  items : List Row
  total : Nat
  page : Nat
  page_size : Nat
  total_pages : Nat
deriving DecidableEq

/-- Shallow embedding of `AsyncMySQLHandler.fetch_paginated`
(src/db/async_mysql.py, lines 276-316).  The base query's full result set
is `rows`; the `COUNT(*)` wrapper query returns `rows.length`; the
`LIMIT page_size OFFSET offset` window keeps at most `page_size` rows after
dropping `offset = (page - 1) * page_size` rows; `total_pages` is computed
as `(total + page_size - 1) // page_size` exactly as in the source. -/
def fetch_paginated {Row : Type} (rows : List Row) (page page_size : Nat) :
    Paginated Row :=
  let offset := (page - 1) * page_size
  let total := rows.length
  { items := (rows.drop offset).take page_size
    total := total
    page := page
    page_size := page_size
    total_pages := (total + page_size - 1) / page_size }

/-! ### Transaction scoping and batched execution
(`AsyncMySQLHandler.transaction` / `execute_many`) -/

/-- A parameterized mutating statement: the abstract semantics of one
`cursor.execute(sql, params)` against the current session state, which
either fails or returns the affected-row count and the new session state. -/
def Stmt (Row P E : Type) := List Row → P → Except E (Nat × List Row)

/-- Shallow embedding of `cursor.executemany(sql, params_list)`: the
statement is applied to each parameter set in order on the session state,
stopping at the first failure; on success the total affected count and the
final session state are returned. -/
def executemany {Row P E : Type} (stmt : Stmt Row P E) (paramsList : List P)
    (session : List Row) : Except E (Nat × List Row) :=
  match paramsList with
  | [] => .ok (0, session)
  | p :: rest =>
    match stmt session p with
    | .error e => .error e
    | .ok (n, session') =>
      match executemany stmt rest session' with
      | .error e => .error e
      | .ok (m, session'') => .ok (n + m, session'')

/-- Shallow embedding of `AsyncMySQLHandler.transaction`
(src/db/async_mysql.py, lines 172-184): `conn.begin()` opens a session on
the committed state, the body runs on that session, `conn.commit()` on
normal scope exit publishes the session, and on any error `conn.rollback()`
restores the committed state before the exception is re-raised.  The result
is (outcome propagated to the caller, committed database afterwards). -/
def transaction {Row E A : Type} (db : List Row)
    (body : List Row → Except E (A × List Row)) :
    Except E A × List Row :=
  match body db with
  | .ok (a, session) => (.ok a, session)
  | .error e => (.error e, db)

/-- Shallow embedding of `AsyncMySQLHandler.execute_many`
(src/db/async_mysql.py, lines 213-238).  With `use_transaction = true` the
batch runs inside `transaction`; otherwise it runs on a plain connection
(autocommit disabled) and `conn.commit()` publishes at the end, while the
`get_connection` scope rolls the session back on error. -/
def execute_many {Row P E : Type} (db : List Row) (stmt : Stmt Row P E)
    (paramsList : List P) (use_transaction : Bool) :
    Except E Nat × List Row :=
  if use_transaction then
    transaction db (executemany stmt paramsList)
  else
    match executemany stmt paramsList db with
    | .ok (n, session) => (.ok n, session)
    | .error e => (.error e, db)

/-- A concrete statement for the C2 witness: appends its parameter to the
session unless the parameter is 13, in which case it fails. -/
def demoStmt : Stmt Nat Nat String := fun session p =>
  if p = 13 then .error "boom" else .ok (1, session ++ [p])

/-! ### Lazy pool lifecycle (`AsyncMySQLHandler._ensure_pool` / `__new__`) -/

/-- An initialized connection pool, identified abstractly; the lifecycle
claims do not depend on its contents. -/
structure Pool where
  id : Nat
deriving DecidableEq

/-- The mutable state of an `AsyncMySQLHandler` relevant to the pool
lifecycle: `self.pool`, which is `None` until first successful creation. -/
structure HandlerState where
  pool : Option Pool
deriving DecidableEq

/-- Shallow embedding of `AsyncMySQLHandler._ensure_pool`
(src/db/async_mysql.py, lines 97-115).  `create` is the outcome the
environment gives `aiomysql.create_pool` on this particular call.  If
`self.pool` is already set the call returns immediately without touching it;
otherwise a successful creation stores the new pool, and a failed creation
logs, re-raises, and leaves `self.pool` at `None`.
`init_pool` (lines 117-119) simply delegates to this. -/
def ensure_pool {E : Type} (st : HandlerState) (create : Except E Pool) :
    Except E Unit × HandlerState :=
  match st.pool with
  | some _ => (.ok (), st)
  | none =>
    match create with
    | .ok p => (.ok (), { pool := some p })
    | .error e => (.error e, st)

/-- The class-level singleton state of `AsyncMySQLHandler`: `_instance`. -/
structure ClassState where
  inst : Option Nat
deriving DecidableEq

/-- Shallow embedding of `AsyncMySQLHandler.__new__`
(src/db/async_mysql.py, lines 22-32): double-checked, lock-guarded singleton
creation, embedded sequentially.  The outer check, the `_lock` acquisition
and the inner re-check run in program order with no interleaving, so the
lock acquisition is represented by the re-check it guards.  `fresh` stands
for the object `super().__new__(cls)` would allocate. -/
def handlerNew (cs : ClassState) (fresh : Nat) : Nat × ClassState :=
  match cs.inst with
  | some i => (i, cs)
  | none =>
    match cs.inst with
    | some i => (i, cs)
    | none => (fresh, { inst := some fresh })

/-! ### Password hashing (`AuthManager.get_password_hash` / `verify_password`) -/

/-- A bcrypt hash string as stored in `users.password_hash`: the salt
together with the digest of the salted password.  The passlib bcrypt
backend behind `pwd_context` (src/common/auth.py, line 15) is a library
outside this repository; following the spec's description of it as a
one-way salted hash, it is modelled as an ideal salted hash whose digest
determines the salted password (distinct passwords give distinct digests
under the same salt). -/
structure BcryptHash where
  salt : Nat
  digest : List Nat
deriving DecidableEq

/-- The idealized bcrypt digest of `password` under `salt`: the salt
followed by the password's character codes (an injective stand-in for the
real digest function). -/
def bcryptDigest (salt : Nat) (password : String) : List Nat :=
  salt :: password.data.map Char.toNat

/-- Shallow embedding of `AuthManager.get_password_hash`
(src/common/auth.py, lines 28-30), i.e. `pwd_context.hash(password)`: the
library draws a fresh `salt` and stores it alongside the digest. -/
def get_password_hash (salt : Nat) (password : String) : BcryptHash :=
  { salt := salt, digest := bcryptDigest salt password }

/-- Shallow embedding of `AuthManager.verify_password`
(src/common/auth.py, lines 24-26), i.e. `pwd_context.verify(plain, hashed)`:
the candidate is digested under the stored salt and compared with the
stored digest. -/
def verify_password (plain : String) (hashed : BcryptHash) : Bool :=
  bcryptDigest hashed.salt plain == hashed.digest

/-! ### Access tokens (`AuthManager.create_access_token` / `verify_token`) -/

/-- A JSON claim value as carried by these tokens: a string or a timestamp
(epochs modelled as natural numbers). -/
inductive JVal where
  | str (s : String)
  | time (t : Nat)
deriving DecidableEq

/-- A claims payload: a finite key-value mapping; the first binding of a
key is the one `dict`-style lookup sees. -/
abbrev Payload := List (String × JVal)

/-- `payload.get(key)`. -/
def getClaim (payload : Payload) (key : String) : Option JVal :=
  match payload with
  | [] => none
  | (k, v) :: rest => if k = key then some v else getClaim rest key

/-- `payload.update({key: v})`: replace the binding of `key`, or add one. -/
def setClaim (payload : Payload) (key : String) (v : JVal) : Payload :=
  match payload with
  | [] => [(key, v)]
  | (k, w) :: rest =>
    if k = key then (k, v) :: rest else (k, w) :: setClaim rest key v

/-- The signature of a JWT: an idealized MAC recording the key, the
algorithm and the payload that were signed (unforgeable and
collision-free, the standard idealization of an HMAC; the `jose` library
implementing it is outside this repository). -/
structure JwtSig where
  key : String
  alg : String
  signed : Payload
deriving DecidableEq

/-- An encoded JWT: its (publicly readable) payload with its signature.  A
tampered token is one whose payload no longer matches the signed payload. -/
structure JwtToken where
  payload : Payload
  sig : JwtSig
deriving DecidableEq

/-- `jose.jwt.encode(claims, key, algorithm)`. -/
def jwtEncode (claims : Payload) (key : String) (alg : String) : JwtToken :=
  { payload := claims, sig := { key := key, alg := alg, signed := claims } }

/-- The signature check of `jose.jwt.decode(token, key, algorithms)`: the
token must be signed with the given key, under one of the accepted
algorithms, over exactly the payload it carries. -/
def sigOk (tok : JwtToken) (key : String) (algs : List String) : Bool :=
  tok.sig.key == key && algs.contains tok.sig.alg && tok.sig.signed == tok.payload

/-- The expiry check of `jose.jwt.decode`: a token whose `exp` claim is the
timestamp `t` is expired from `t` on; a token without an `exp` claim never
expires. -/
def jwtExpired (tok : JwtToken) (now : Nat) : Bool :=
  match getClaim tok.payload "exp" with
  | some (.time t) => decide (t ≤ now)
  | _ => false

/-- Decode failures of `jose.jwt.decode` (all subclasses of `JWTError`):
bad signature, expired token, or a malformed registered claim. -/
inductive JwtErr where
  | badSignature
  | expired
  | badClaims
deriving DecidableEq

/-- `jose.jwt.decode(token, key, algorithms)` at time `now`: verify the
signature, then the `exp` claim (a non-timestamp `exp` is a claims error),
and return the payload. -/
def jwtDecode (tok : JwtToken) (key : String) (algs : List String)
    (now : Nat) : Except JwtErr Payload :=
  if sigOk tok key algs then
    match getClaim tok.payload "exp" with
    | some (.time t) => if now < t then .ok tok.payload else .error .expired
    | some (.str _) => .error .badClaims
    | none => .ok tok.payload
  else .error .badSignature

/-- The failure `verify_token` surfaces: `HTTPException(401)`. -/
inductive AuthErr where
  | unauthorized
deriving DecidableEq

/-- The `TokenData` model (src/models/base.py) returned by `verify_token`;
its `username` field carries whatever value the `sub` claim held. -/
structure TokenData where
  username : JVal
deriving DecidableEq

/-- The `if expires_delta: ... else ...` branch of `create_access_token`:
Python truthiness makes both `None` and a zero timedelta fall back to the
configured default TTL. -/
def deltaOrDefault (expiresDelta : Option Nat) (defaultTtl : Nat) : Nat :=
  match expiresDelta with
  | some d => if d = 0 then defaultTtl else d
  | none => defaultTtl

/-- Shallow embedding of `AuthManager.create_access_token`
(src/common/auth.py, lines 32-42): copy the claims, compute
`expire = now + expires_delta` (or the configured default TTL), set the
`exp` claim on the copy, and sign with the server secret and the configured
algorithm. -/
def create_access_token (secret alg : String) (defaultTtl : Nat)
    (data : Payload) (expiresDelta : Option Nat) (now : Nat) : JwtToken :=
  jwtEncode (setClaim data "exp"
    (.time (now + deltaOrDefault expiresDelta defaultTtl))) secret alg

/-- Shallow embedding of `AuthManager.verify_token`
(src/common/auth.py, lines 44-62): decode with the server secret and the
single configured algorithm (any `JWTError` is turned into a 401), then
read the `sub` claim; a missing subject is also a 401, otherwise
`TokenData(username=sub)` is returned. -/
def verify_token (secret alg : String) (tok : JwtToken) (now : Nat) :
    Except AuthErr TokenData :=
  match jwtDecode tok secret [alg] now with
  | .error _ => .error .unauthorized
  | .ok payload =>
    match getClaim payload "sub" with
    | none => .error .unauthorized
    | some v => .ok { username := v }

/-! ### Statement text construction
(`AsyncMySQLHandler.insert` / `update` / `fetch_paginated`) -/

/-- Shallow embedding of the statement construction in
`AsyncMySQLHandler.insert` (src/db/async_mysql.py, lines 333-339): the SQL
text is assembled from the table name and the field map's keys
(order-stable), and the field map's values are passed separately as the
binding parameter list (`list(data.values())`). -/
def insert_sql {V : Type} (table : String) (data : List (String × V)) :
    String × List V :=
  let columns := String.intercalate ", " (data.map Prod.fst)
  let placeholders := String.intercalate ", " (data.map (fun _ => "%s"))
  ("INSERT INTO " ++ table ++ " (" ++ columns ++ ") VALUES (" ++ placeholders ++ ")",
   data.map Prod.snd)

/-- Shallow embedding of the statement construction in
`AsyncMySQLHandler.update` (src/db/async_mysql.py, lines 362-369): the SQL
text is assembled from the table name, the field map's keys and the
caller-supplied predicate text; the field values and the predicate
parameters are passed as the binding parameter list. -/
def update_sql {V : Type} (table : String) (data : List (String × V))
    (whereClause : String) (whereParams : List V) : String × List V :=
  let setClause := String.intercalate ", " (data.map (fun kv => kv.fst ++ " = %s"))
  ("UPDATE " ++ table ++ " SET " ++ setClause ++ " WHERE " ++ whereClause,
   data.map Prod.snd ++ whereParams)

/-- Shallow embedding of the two statement texts built by
`AsyncMySQLHandler.fetch_paginated` (src/db/async_mysql.py, lines 293-307):
the count query and the windowed query, each executed with the caller's
binding parameters untouched.  Only the base SQL text, the page number and
the page size reach the text. -/
def paginated_sql {V : Type} (sql : String) (page page_size : Nat)
    (params : List V) : (String × List V) × (String × List V) :=
  let offset := (page - 1) * page_size
  (("SELECT COUNT(*) as total FROM (" ++ sql ++ ") as count_table", params),
   (sql ++ " LIMIT " ++ toString page_size ++ " OFFSET " ++ toString offset,
    params))

/-! ### Domain model: users, roles, statuses -/

/-- The `UserRole` enumeration (src/models/user_models/user.py). -/
inductive UserRole where
  | admin
  | user
  | moderator
deriving DecidableEq

/-- The `.value` string of a `UserRole` member. -/
def UserRole.value : UserRole → String
  | .admin => "admin"
  | .user => "user"
  | .moderator => "moderator"

/-- The `UserStatus` enumeration (src/models/user_models/user.py). -/
inductive UserStatus where
  | active
  | inactive
  | banned
deriving DecidableEq

/-- The `.value` string of a `UserStatus` member. -/
def UserStatus.value : UserStatus → String
  | .active => "active"
  | .inactive => "inactive"
  | .banned => "banned"

/-- A row of the `users` table with the columns the services read and
write; `role` and `status` are stored as their string values, timestamps as
natural-number epochs. -/
structure UserRow where
  id : Nat
  username : String
  email : String
  full_name : Option String
  password_hash : BcryptHash
  role : String
  status : String
  is_active : Bool
  created_at : Nat
  updated_at : Option Nat
deriving DecidableEq

/-! ### Authentication (`UserService.authenticate_user`) -/

/-- The query
`SELECT * FROM users WHERE username = %s AND is_active = 1` through
`fetch_one`: the first row with this username and an active flag, if any. -/
def fetch_active_user (db : List UserRow) (username : String) :
    Option UserRow :=
  db.find? (fun r => r.username == username && r.is_active)

/-- Shallow embedding of `UserService.authenticate_user`
(src/service/user_handler/user.py, lines 10-20): look up an active row by
username; `if not user or not auth_manager.verify_password(password,
user["password_hash"])` return `None`; otherwise return the full row. -/
def authenticate_user (db : List UserRow) (username password : String) :
    Option UserRow :=
  match fetch_active_user db username with
  | none => none
  | some user =>
    if verify_password password user.password_hash then some user else none

/-- A concrete active user row for witnesses: "bob" with password
"secret123" hashed under salt 9. -/
def bobRow : UserRow :=
  { id := 1
    username := "bob"
    email := "bob@example.com"
    full_name := none
    password_hash := get_password_hash 9 "secret123"
    role := "user"
    status := "active"
    is_active := true
    created_at := 0
    updated_at := none }

/-! ### Role-based authorization (`require_role`) -/

/-- Failures raised along the `require_role` dependency chain:
a 400 from `get_current_active_user` for a non-active account, or the
checker's own 403. -/
inductive RoleErr where
  | inactiveAccount
  | forbidden
deriving DecidableEq

/-- Shallow embedding of `get_current_active_user` (src/common/auth.py,
lines 85-89): reject with a 400 a current user whose `status` column is not
"active". -/
def get_current_active_user (u : UserRow) : Except RoleErr UserRow :=
  if u.status ≠ "active" then .error .inactiveAccount else .ok u

/-- Shallow embedding of the checker returned by `require_role`
(src/common/auth.py, lines 91-100): the current user first passes the
`get_current_active_user` dependency, then is rejected with a 403 iff its
role string is neither the required role's value nor "admin". -/
def require_role (required : UserRole) (u : UserRow) : Except RoleErr UserRow :=
  match get_current_active_user u with
  | .error e => .error e
  | .ok cu =>
    if cu.role ≠ required.value ∧ cu.role ≠ "admin" then .error .forbidden
    else .ok cu

/-- An admin row for the C9 witness. -/
def rootRow : UserRow :=
  { bobRow with id := 2, username := "root", role := "admin" }

/-! ### Partial updates (`UserService.update_user` /
`ArticleService.update_article`) -/

/-- Domain failures raised by the services: 400 for an empty update
payload, 404 for a missing article, 403 for a caller who is neither author
nor admin, and the unhandled `TypeError` a missing caller row would raise
in the article permission check. -/
inductive SvcErr where
  | validation
  | notFound
  | forbidden
  | serverError
deriving DecidableEq

/-- The `UserUpdate` request model (src/models/user_models/user.py): every
field optional. -/
structure UserUpdate where
  username : Option String
  email : Option String
  full_name : Option String
  role : Option UserRole
  status : Option UserStatus
deriving DecidableEq

/-- One SET assignment on the `users` table, as placed into the
`update_fields` dict by `UserService.update_user`. -/
inductive UserCol where
  | username (v : String)
  | email (v : String)
  | full_name (v : String)
  | role (v : String)
  | status (v : String)
  | updated_at (v : Nat)
deriving DecidableEq

/-- Applying one SET assignment to a row. -/
def setUserCol (r : UserRow) : UserCol → UserRow
  | .username v => { r with username := v }
  | .email v => { r with email := v }
  | .full_name v => { r with full_name := some v }
  | .role v => { r with role := v }
  | .status v => { r with status := v }
  | .updated_at v => { r with updated_at := some v }

/-- The `update_fields` dict built by `UserService.update_user`
(src/service/user_handler/user.py, lines 90-107), in source order, before
`updated_at` is added: one assignment per provided payload field, enum
fields through their `.value`. -/
def user_update_fields (u : UserUpdate) : List UserCol :=
  (match u.username with | some v => [UserCol.username v] | none => []) ++
  (match u.email with | some v => [UserCol.email v] | none => []) ++
  (match u.full_name with | some v => [UserCol.full_name v] | none => []) ++
  (match u.role with | some v => [UserCol.role v.value] | none => []) ++
  (match u.status with | some v => [UserCol.status v.value] | none => [])

/-- Shallow embedding of `UserService.update_user`
(src/service/user_handler/user.py, lines 88-128): collect the provided
fields; if none were provided raise 400 with the database untouched;
otherwise add `updated_at = now` and issue one UPDATE whose SET clause is
applied to every row matching `id = user_id`.  The result is the new
database state (the subsequent re-fetch reads from it). -/
def update_user (db : List UserRow) (user_id : Nat) (u : UserUpdate)
    (now : Nat) : Except SvcErr (List UserRow) :=
  let fields := user_update_fields u
  if fields.isEmpty then .error .validation
  else
    let fields2 := fields ++ [UserCol.updated_at now]
    .ok (db.map (fun r =>
      if r.id = user_id then fields2.foldl setUserCol r else r))

/-- A concrete user row whose `updated_at` is 5. -/
def neoRow : UserRow :=
  { bobRow with id := 3, username := "trinity", updated_at := some 5 }

/-- A payload providing only a new username. -/
def neoPayload : UserUpdate :=
  { username := some "neo"
    email := none
    full_name := none
    role := none
    status := none }

/-- The `ArticleUpdate` request model
(src/models/article_models/article.py): every field optional. -/
structure ArticleUpdate where
  title : Option String
  content : Option String
  summary : Option String
  tags : Option (List String)
  is_published : Option Bool
deriving DecidableEq

/-- A row of the `articles` table; `tags` holds the serialized (JSON) tag
list, timestamps are epochs. -/
structure ArticleRow where
  id : Nat
  title : String
  content : String
  summary : Option String
  tags : Option String
  is_published : Bool
  author_id : Nat
  view_count : Nat
  created_at : Nat
  updated_at : Option Nat
deriving DecidableEq

/-- The `json.dumps` serialization of a tag list as stored in `tags`. -/
def jsonDumps (tags : List String) : String :=
  "[" ++ String.intercalate ", " (tags.map (fun t => "\"" ++ t ++ "\"")) ++ "]"

/-- One SET assignment on the `articles` table, as placed into the
`update_fields` dict by `ArticleService.update_article`. -/
inductive ArticleCol where
  | title (v : String)
  | content (v : String)
  | summary (v : String)
  | tags (v : String)
  | is_published (v : Bool)
  | updated_at (v : Nat)
deriving DecidableEq

/-- Applying one SET assignment to an article row. -/
def setArticleCol (a : ArticleRow) : ArticleCol → ArticleRow
  | .title v => { a with title := v }
  | .content v => { a with content := v }
  | .summary v => { a with summary := some v }
  | .tags v => { a with tags := some v }
  | .is_published v => { a with is_published := v }
  | .updated_at v => { a with updated_at := some v }

/-- The `update_fields` dict built by `ArticleService.update_article`
(src/service/article_handler/article.py, lines 98-121), in source order,
before `updated_at` is added; a provided tag list is serialized with
`json.dumps`. -/
def article_update_fields (u : ArticleUpdate) : List ArticleCol :=
  (match u.title with | some v => [ArticleCol.title v] | none => []) ++
  (match u.content with | some v => [ArticleCol.content v] | none => []) ++
  (match u.summary with | some v => [ArticleCol.summary v] | none => []) ++
  (match u.tags with | some v => [ArticleCol.tags (jsonDumps v)] | none => []) ++
  (match u.is_published with | some v => [ArticleCol.is_published v] | none => [])

/-- `fetch_one("SELECT * FROM articles WHERE id = %s")`. -/
def fetch_article (db : List ArticleRow) (article_id : Nat) :
    Option ArticleRow :=
  db.find? (fun a => a.id == article_id)

/-- The permission check of `ArticleService.update_article`
(src/service/article_handler/article.py, lines 86-96):
`if article["author_id"] != user_id and user["role"] != "admin"` raises a
403.  Python's short-circuit `and` reads `user["role"]` only when the
author does not match; a missing caller row there raises a `TypeError`,
modelled as `serverError`. -/
def article_permission (article : ArticleRow) (udb : List UserRow)
    (user_id : Nat) : Except SvcErr Unit :=
  if article.author_id = user_id then .ok ()
  else
    match udb.find? (fun r => r.id == user_id) with
    | none => .error .serverError
    | some usr => if usr.role = "admin" then .ok () else .error .forbidden

/-- Shallow embedding of `ArticleService.update_article`
(src/service/article_handler/article.py, lines 72-135): fetch the article
(404 when absent), check the author-or-admin permission, collect the
provided fields (400 when none), then add `updated_at = now` and issue one
UPDATE whose SET clause is applied to every row matching `id = article_id`.
The result is the new articles table. -/
def update_article (adb : List ArticleRow) (udb : List UserRow)
    (article_id : Nat) (u : ArticleUpdate) (user_id : Nat) (now : Nat) :
    Except SvcErr (List ArticleRow) :=
  match fetch_article adb article_id with
  | none => .error .notFound
  | some article =>
    match article_permission article udb user_id with
    | .error e => .error e
    | .ok _ =>
      let fields := article_update_fields u
      if fields.isEmpty then .error .validation
      else
        let fields2 := fields ++ [ArticleCol.updated_at now]
        .ok (adb.map (fun a =>
          if a.id = article_id then fields2.foldl setArticleCol a else a))

/-- The all-absent user payload for the C7 witness. -/
def emptyUserPayload : UserUpdate :=
  { username := none
    email := none
    full_name := none
    role := none
    status := none }

/-! ### Execution placement of password hashing -/

/-- Where a step of an async request handler executes: on the event-loop
thread, or on a `ThreadPoolExecutor` worker (reachable only through
`AsyncMySQLHandler.run_in_thread`, src/db/async_mysql.py, lines 389-402). -/
inductive ExecLoc where
  | eventLoop
  | workerThread
deriving DecidableEq

/-- A scheduling-relevant step of a service coroutine: an awaited database
call (which yields the loop), or a password-hash computation tagged with
the thread it runs on. -/
inductive Step where
  | dbCall
  | hash (loc : ExecLoc)
deriving DecidableEq

/-- The scheduling trace of `UserService.create_user`
(src/service/user_handler/user.py, lines 22-52): the awaited duplicate
check, then — when no duplicate exists —
`auth_manager.get_password_hash(user_data.password)` called directly as a
plain synchronous call (line 38), hence on the event-loop thread and not
wrapped in `run_in_thread`, followed by the awaited insert and re-fetch. -/
def create_user_trace (duplicateExists : Bool) : List Step :=
  if duplicateExists then [.dbCall]
  else [.dbCall, .hash .eventLoop, .dbCall, .dbCall]

/-- The scheduling trace of `UserService.authenticate_user`
(src/service/user_handler/user.py, lines 10-20): the awaited user lookup,
then — when a row was found — `auth_manager.verify_password` called
directly as a plain synchronous call (line 17), on the event-loop thread. -/
def authenticate_user_trace (userFound : Bool) : List Step :=
  if userFound then [.dbCall, .hash .eventLoop] else [.dbCall]

/-- The step `AsyncMySQLHandler.run_in_thread` would contribute for a
CPU-bound function such as a password hash: execution on a worker thread
of the executor (`loop.run_in_executor(self.thread_pool, func, ...)`). -/
def run_in_thread_step : Step := .hash .workerThread

/-! ## Properties -/

/-- The integer formula `(T + ps - 1) / ps` is bracketed by `T` and `T + ps`:
`T ≤ ps * ((T + ps - 1) / ps) < T + ps`. -/
lemma ceilDiv_bounds (T ps : Nat) (hps : 1 ≤ ps) :
    T ≤ ps * ((T + ps - 1) / ps) ∧ ps * ((T + ps - 1) / ps) < T + ps := by
  have h1 := Nat.div_add_mod (T + ps - 1) ps
  have h2 : (T + ps - 1) % ps < ps := Nat.mod_lt _ hps
  generalize hq : (T + ps - 1) / ps = q at h1 ⊢
  generalize hr : (T + ps - 1) % ps = r at h1 h2
  generalize hm : ps * q = m at h1 ⊢
  omega

/-- The source's `(T + ps - 1) // ps` equals the rational ceiling `⌈T / ps⌉`. -/
lemma total_pages_eq_ceil (T ps : Nat) (hps : 1 ≤ ps) :
    (((T + ps - 1) / ps : Nat) : ℤ) = ⌈(T : ℚ) / (ps : ℚ)⌉ := by
  obtain ⟨hlo, hhi⟩ := ceilDiv_bounds T ps hps
  generalize hq : (T + ps - 1) / ps = q at hlo hhi ⊢
  have hps0 : (0 : ℚ) < (ps : ℚ) := by exact_mod_cast hps
  have hloQ : (T : ℚ) ≤ (ps : ℚ) * (q : ℚ) := by exact_mod_cast hlo
  have hhiQ : (ps : ℚ) * (q : ℚ) < (T : ℚ) + ps := by exact_mod_cast hhi
  rw [eq_comm, Int.ceil_eq_iff]
  constructor
  · rw [lt_div_iff₀ hps0]
    push_cast
    linarith
  · rw [div_le_iff₀ hps0]
    push_cast
    linarith

/-- C1: for every `page ≥ 1` and `page_size ≥ 1`, `fetch_paginated` over a
base query whose result has `T = rows.length` total rows returns an envelope
in which `total_pages = ⌈T / page_size⌉`, the window is
`drop ((page-1)*page_size)` then `take page_size`, the items sequence has
length `min page_size (max 0 (T - (page-1)*page_size))`, and a page beyond
range yields an empty item sequence with the correctly computed total. -/
theorem fetch_paginated_spec {Row : Type} (rows : List Row) (page ps : Nat)
    (hpage : 1 ≤ page) (hps : 1 ≤ ps) :
    (fetch_paginated rows page ps).total = rows.length ∧
    (fetch_paginated rows page ps).page = page ∧
    (fetch_paginated rows page ps).page_size = ps ∧
    ((fetch_paginated rows page ps).total_pages : ℤ)
      = ⌈(rows.length : ℚ) / (ps : ℚ)⌉ ∧
    (fetch_paginated rows page ps).items
      = (rows.drop ((page - 1) * ps)).take ps ∧
    ((fetch_paginated rows page ps).items.length : ℤ)
      = min (ps : ℤ) (max 0 ((rows.length : ℤ) - ((page : ℤ) - 1) * (ps : ℤ))) ∧
    (rows.length ≤ (page - 1) * ps → (fetch_paginated rows page ps).items = []) := by
  refine ⟨rfl, rfl, rfl, total_pages_eq_ceil rows.length ps hps, rfl, ?_, ?_⟩
  · have hlen : (fetch_paginated rows page ps).items.length
        = min ps (rows.length - (page - 1) * ps) := by
      simp [fetch_paginated]
    rw [hlen]
    have hcast : (((page - 1) * ps : Nat) : ℤ) = ((page : ℤ) - 1) * (ps : ℤ) := by
      have h1 : ((page - 1 : Nat) : ℤ) = (page : ℤ) - 1 := by omega
      rw [Nat.cast_mul, h1]
    rw [← hcast]
    generalize (page - 1) * ps = off
    omega
  · intro h
    have hnil : rows.drop ((page - 1) * ps) = [] := by
      simp [List.drop_eq_nil_iff]
      omega
    simp [fetch_paginated, hnil]

/-- Witness for C1: five rows, page 2 of size 2 yields items `[30, 40]` and
`total_pages = ⌈5/2⌉ = 3`. -/
theorem fetch_paginated_spec_witness :
    ((fetch_paginated [10, 20, 30, 40, 50] 2 2).total_pages : ℤ)
      = ⌈((5 : Nat) : ℚ) / ((2 : Nat) : ℚ)⌉ ∧
    (fetch_paginated [10, 20, 30, 40, 50] 2 2).items = [30, 40] := by
  have h := fetch_paginated_spec [10, 20, 30, 40, 50] 2 2 (by decide) (by decide)
  exact ⟨h.2.2.2.1, by decide⟩

/-- C2: `execute_many` with `use_transaction = true` is all-or-nothing: if
any statement of the batch fails, the error propagates to the caller and the
committed database is exactly the pre-batch database (zero rows of the batch
remain); if all statements succeed, the whole batch's final session state is
committed on normal scope exit. -/
theorem execute_many_all_or_nothing {Row P E : Type} (db : List Row)
    (stmt : Stmt Row P E) (paramsList : List P) :
    (∀ e, executemany stmt paramsList db = .error e →
        execute_many db stmt paramsList true = (.error e, db)) ∧
    (∀ n session, executemany stmt paramsList db = .ok (n, session) →
        execute_many db stmt paramsList true = (.ok n, session)) := by
  constructor
  · intro e h
    simp [execute_many, transaction, h]
  · intro n session h
    simp [execute_many, transaction, h]

/-- Witness for C2: a batch whose second statement fails leaves the
committed database exactly as before the batch, and the error propagates. -/
theorem execute_many_all_or_nothing_witness :
    execute_many [1] demoStmt [2, 13] true = (.error "boom", [1]) :=
  (execute_many_all_or_nothing [1] demoStmt [2, 13]).1 "boom" rfl

/-- C5: pool initialization is a once-only lazy lifecycle.  On first use
with `self.pool = None` a successful creation stores the pool; every
ensure/init request once a pool exists is a no-op leaving the existing pool
unchanged; a failed creation propagates the error and leaves the pool
uninitialized, so an immediately following ensure can retry and succeed; and
the (sequentially embedded) double-checked, lock-guarded `__new__` hands
every later request the instance created first, unchanged. -/
theorem pool_lifecycle {E : Type} :
    (∀ (st : HandlerState) (p : Pool), st.pool = none →
        ensure_pool st (Except.ok p : Except E Pool) = (.ok (), { pool := some p })) ∧
    (∀ (st : HandlerState) (p : Pool) (c : Except E Pool), st.pool = some p →
        ensure_pool st c = (.ok (), st)) ∧
    (∀ (st : HandlerState) (e : E), st.pool = none →
        ensure_pool st (Except.error e) = (.error e, st)) ∧
    (∀ (st : HandlerState) (e : E) (p : Pool), st.pool = none →
        ensure_pool (ensure_pool st (Except.error e)).2 (Except.ok p : Except E Pool)
          = (.ok (), { pool := some p })) ∧
    (∀ (cs : ClassState) (fresh1 fresh2 : Nat), cs.inst = none →
        handlerNew (handlerNew cs fresh1).2 fresh2 = handlerNew cs fresh1) := by
  refine ⟨?_, ?_, ?_, ?_, ?_⟩
  · intro st p h
    simp [ensure_pool, h]
  · intro st p c h
    simp [ensure_pool, h]
  · intro st e h
    simp [ensure_pool, h]
  · intro st e p h
    simp [ensure_pool, h]
  · intro cs fresh1 fresh2 h
    simp [handlerNew, h]

/-- Witness for C5: failed creation propagates and leaves the pool unset,
an existing pool makes ensure a no-op, and the second `__new__` returns the
first instance. -/
theorem pool_lifecycle_witness :
    ensure_pool { pool := none } (Except.error "down")
      = (Except.error "down", ({ pool := none } : HandlerState)) ∧
    ensure_pool { pool := some ⟨7⟩ } (Except.error "down")
      = (Except.ok (), ({ pool := some ⟨7⟩ } : HandlerState)) ∧
    handlerNew (handlerNew { inst := none } 3).2 4 = handlerNew { inst := none } 3 := by
  refine ⟨?_, ?_, ?_⟩
  · exact (@pool_lifecycle String).2.2.1 { pool := none } "down" rfl
  · exact (@pool_lifecycle String).2.1 { pool := some ⟨7⟩ } ⟨7⟩ (Except.error "down") rfl
  · exact (@pool_lifecycle String).2.2.2.2 { inst := none } 3 4 rfl

/-- Character codes determine characters. -/
lemma char_toNat_injective : Function.Injective Char.toNat := by
  intro a b h
  apply Char.eq_of_val_eq
  apply UInt32.eq_of_toBitVec_eq
  apply BitVec.eq_of_toNat_eq
  exact h

/-- C4: verifying a password against its own hash succeeds, and verifying a
password against the hash of any different password fails, for every salt
the library may have drawn. -/
theorem password_hash_roundtrip :
    (∀ (salt : Nat) (p : String),
        verify_password p (get_password_hash salt p) = true) ∧
    (∀ (salt : Nat) (p p2 : String), p ≠ p2 →
        verify_password p (get_password_hash salt p2) = false) := by
  constructor
  · intro salt p
    simp [verify_password, get_password_hash]
  · intro salt p p2 hne
    rw [verify_password, beq_eq_false_iff_ne]
    intro h
    apply hne
    have h2 : p.data.map Char.toNat = p2.data.map Char.toNat := by
      simpa [get_password_hash, bcryptDigest] using h
    have h3 : p.data = p2.data :=
      (List.map_injective_iff.mpr char_toNat_injective) h2
    exact congrArg String.mk h3

/-- Witness for C4: the hash of "secret123" verifies against "secret123"
and rejects "wrong", for a concrete salt. -/
theorem password_hash_roundtrip_witness :
    verify_password "secret123" (get_password_hash 42 "secret123") = true ∧
    verify_password "wrong" (get_password_hash 42 "secret123") = false := by
  constructor
  · exact password_hash_roundtrip.1 42 "secret123"
  · exact password_hash_roundtrip.2 42 "wrong" "secret123" (by decide)

/-- Setting one claim leaves lookups of other keys unchanged. -/
lemma getClaim_setClaim_ne (payload : Payload) (k k2 : String) (v : JVal)
    (h : k2 ≠ k) : getClaim (setClaim payload k v) k2 = getClaim payload k2 := by
  induction payload with
  | nil => simp [setClaim, getClaim, h, Ne.symm h]
  | cons hd tl ih =>
    obtain ⟨hk, hv⟩ := hd
    by_cases hhd : hk = k
    · simp [setClaim, getClaim, hhd, h, Ne.symm h]
    · simp only [setClaim, hhd, if_false, getClaim]
      by_cases hhd2 : hk = k2
      · simp [hhd2]
      · simp [hhd2, ih]

/-- Setting a claim makes lookups of that key see the new value. -/
lemma getClaim_setClaim_self (payload : Payload) (k : String) (v : JVal) :
    getClaim (setClaim payload k v) k = some v := by
  induction payload with
  | nil => simp [setClaim, getClaim]
  | cons hd tl ih =>
    obtain ⟨hk, hv⟩ := hd
    by_cases hhd : hk = k
    · simp [setClaim, getClaim, hhd]
    · simp [setClaim, getClaim, hhd, ih]

/-- A token encoded with an `exp` claim strictly in the future verifies to
the subject it was minted for. -/
lemma verify_encode (secret alg : String) (data : Payload) (u : String)
    (expire now2 : Nat) (hsub : getClaim data "sub" = some (.str u))
    (hexp : now2 < expire) :
    verify_token secret alg
        (jwtEncode (setClaim data "exp" (.time expire)) secret alg) now2
      = .ok { username := .str u } := by
  have hgetexp : getClaim (setClaim data "exp" (.time expire)) "exp"
      = some (.time expire) := getClaim_setClaim_self _ _ _
  have hgetsub : getClaim (setClaim data "exp" (.time expire)) "sub"
      = some (.str u) := by
    have hne : ("sub" : String) ≠ "exp" := by decide
    rw [getClaim_setClaim_ne _ _ _ _ hne, hsub]
  simp [verify_token, jwtDecode, jwtEncode, sigOk, hgetexp, hgetsub, hexp]

/-- C3: a token minted by `create_access_token` from a claims map with
subject `u` verifies before its expiry to claims whose username is `u`;
and for any token whose `exp` claim (if present) is a timestamp,
`verify_token` fails with 401 exactly when the signature is invalid, the
token is expired, or the subject claim is absent. -/
theorem verify_token_spec (secret alg : String) (defaultTtl : Nat) :
    (∀ (data : Payload) (u : String) (delta : Option Nat) (now now2 : Nat),
        getClaim data "sub" = some (.str u) →
        now2 < now + deltaOrDefault delta defaultTtl →
        verify_token secret alg
            (create_access_token secret alg defaultTtl data delta now) now2
          = .ok { username := .str u }) ∧
    (∀ (tok : JwtToken) (now : Nat),
        (∀ v, getClaim tok.payload "exp" = some v → ∃ t, v = .time t) →
        (verify_token secret alg tok now = .error .unauthorized ↔
          (sigOk tok secret [alg] = false ∨ jwtExpired tok now = true ∨
            getClaim tok.payload "sub" = none))) := by
  constructor
  · intro data u delta now now2 hsub hexp
    exact verify_encode secret alg data u
      (now + deltaOrDefault delta defaultTtl) now2 hsub hexp
  · intro tok now hwf
    by_cases hsig : sigOk tok secret [alg]
    · cases hexp : getClaim tok.payload "exp" with
      | none =>
        cases hsub : getClaim tok.payload "sub" with
        | none => simp [verify_token, jwtDecode, jwtExpired, hsig, hexp, hsub]
        | some v => simp [verify_token, jwtDecode, jwtExpired, hsig, hexp, hsub]
      | some v =>
        obtain ⟨t, rfl⟩ := hwf v hexp
        by_cases hnow : now < t
        · cases hsub : getClaim tok.payload "sub" with
          | none =>
            simp [verify_token, jwtDecode, jwtExpired, hsig, hexp, hsub, hnow]
          | some v =>
            simp [verify_token, jwtDecode, jwtExpired, hsig, hexp, hsub, hnow]
        · simp [verify_token, jwtDecode, jwtExpired, hsig, hexp, hnow]
          omega
    · simp only [Bool.not_eq_true] at hsig
      simp [verify_token, jwtDecode, hsig]

/-- Witness for C3: a token for subject "alice" verifies to username
"alice" one second before expiry, and the token map's `exp` claim is a
timestamp so the exactness clause applies and rejects a token with no
subject. -/
theorem verify_token_spec_witness :
    verify_token "key" "HS256"
        (create_access_token "key" "HS256" 1800 [("sub", .str "alice")] none 0) 1799
      = .ok { username := .str "alice" } ∧
    (verify_token "key" "HS256"
        (jwtEncode [("exp", .time 100)] "key" "HS256") 5
      = .error .unauthorized ↔
      (sigOk (jwtEncode [("exp", .time 100)] "key" "HS256") "key" ["HS256"] = false ∨
        jwtExpired (jwtEncode [("exp", .time 100)] "key" "HS256") 5 = true ∨
        getClaim (jwtEncode [("exp", .time 100)] "key" "HS256").payload "sub" = none)) := by
  constructor
  · exact (verify_token_spec "key" "HS256" 1800).1 [("sub", .str "alice")]
      "alice" none 0 1799 rfl (by decide)
  · refine (verify_token_spec "key" "HS256" 1800).2
      (jwtEncode [("exp", .time 100)] "key" "HS256") 5 ?_
    intro v hv
    simp [jwtEncode, getClaim] at hv
    exact ⟨100, hv.symm⟩

/-- Rewriting a per-entry key formatting step through the key projection. -/
lemma map_fst_format {V : Type} (d : List (String × V)) (suffix : String) :
    d.map (fun kv => kv.fst ++ suffix)
      = (d.map Prod.fst).map (fun k => k ++ suffix) := by
  induction d with
  | nil => rfl
  | cons hd tl ih => simp [ih]

/-- C6: runtime values never reach the SQL text, only the binding parameter
list.  The text built by `insert` and `update` is a function of the table
name, the field-map keys and the predicate text alone (two field maps with
the same keys yield identical text), the parameter list is exactly the
supplied values, and the two pagination statements' text depends only on
the base SQL and the page window, with the caller's parameters passed
through to binding untouched. -/
theorem sql_binding_noninterference {V : Type} :
    (∀ (table : String) (data data2 : List (String × V)),
        data.map Prod.fst = data2.map Prod.fst →
        (insert_sql table data).1 = (insert_sql table data2).1) ∧
    (∀ (table : String) (data : List (String × V)) (w : String) (wp : List V),
        (insert_sql table data).2 = data.map Prod.snd ∧
        (update_sql table data w wp).2 = data.map Prod.snd ++ wp) ∧
    (∀ (table : String) (data data2 : List (String × V)) (w : String)
        (wp wp2 : List V),
        data.map Prod.fst = data2.map Prod.fst →
        (update_sql table data w wp).1 = (update_sql table data2 w wp2).1) ∧
    (∀ (sql : String) (page page_size : Nat) (params params2 : List V),
        (paginated_sql sql page page_size params).1.1
            = (paginated_sql sql page page_size params2).1.1 ∧
        (paginated_sql sql page page_size params).2.1
            = (paginated_sql sql page page_size params2).2.1 ∧
        (paginated_sql sql page page_size params).1.2 = params ∧
        (paginated_sql sql page page_size params).2.2 = params) := by
  refine ⟨?_, ?_, ?_, ?_⟩
  · intro table data data2 h
    have hlen : data.length = data2.length := by
      have := congrArg List.length h
      simpa using this
    simp only [insert_sql]
    rw [h, List.map_const', List.map_const', hlen]
  · intro table data w wp
    exact ⟨rfl, rfl⟩
  · intro table data data2 w wp wp2 h
    simp only [update_sql]
    rw [map_fst_format, map_fst_format, h]
  · intro sql page page_size params params2
    exact ⟨rfl, rfl, rfl, rfl⟩

/-- Witness for C6: two field maps with the same keys but different values
produce the identical INSERT text. -/
theorem sql_binding_noninterference_witness :
    (insert_sql "users" [("username", "alice"), ("email", "a@x.io")]).1
      = (insert_sql "users" [("username", "bob"), ("email", "b@y.io")]).1 ∧
    (insert_sql "users" [("username", "alice"), ("email", "a@x.io")]).2
      = ["alice", "a@x.io"] := by
  constructor
  · exact (@sql_binding_noninterference String).1 "users"
      [("username", "alice"), ("email", "a@x.io")]
      [("username", "bob"), ("email", "b@y.io")] rfl
  · exact ((@sql_binding_noninterference String).2.1 "users"
      [("username", "alice"), ("email", "a@x.io")] "id = %s" []).1

/-- C10: `authenticate_user` never surfaces an error on bad credentials: it
returns `none` both when no active row matches the username and when the
password fails verification (the same observable result, so callers cannot
distinguish the two), and it returns a row exactly when that row is the
active match and the password verifies. -/
theorem authenticate_user_spec (db : List UserRow) (username password : String) :
    (fetch_active_user db username = none →
        authenticate_user db username password = none) ∧
    (∀ u, fetch_active_user db username = some u →
        verify_password password u.password_hash = false →
        authenticate_user db username password = none) ∧
    (∀ u, authenticate_user db username password = some u ↔
        (fetch_active_user db username = some u ∧
          verify_password password u.password_hash = true)) := by
  refine ⟨?_, ?_, ?_⟩
  · intro h
    simp [authenticate_user, h]
  · intro u h hv
    simp [authenticate_user, h, hv]
  · intro u
    cases hf : fetch_active_user db username with
    | none => simp [authenticate_user, hf]
    | some w =>
      by_cases hv : verify_password password w.password_hash
      · simp only [authenticate_user, hf, hv, if_true, Option.some.injEq]
        constructor
        · rintro rfl
          exact ⟨rfl, hv⟩
        · rintro ⟨hw, _⟩
          exact hw
      · constructor
        · intro h
          simp [authenticate_user, hf, hv] at h
        · rintro ⟨hw, hvv⟩
          obtain rfl : w = u := by injection hw
          exact absurd hvv hv

/-- Witness for C10: the right password authenticates bob, a wrong one
returns `none`. -/
theorem authenticate_user_spec_witness :
    authenticate_user [bobRow] "bob" "secret123" = some bobRow ∧
    authenticate_user [bobRow] "bob" "wrong" = none := by
  constructor
  · exact ((authenticate_user_spec [bobRow] "bob" "secret123").2.2 bobRow).mpr
      ⟨by decide, by decide⟩
  · exact (authenticate_user_spec [bobRow] "bob" "wrong").2.1 bobRow
      (by decide) (by decide)

/-- C9: for an active user, the role check passes iff the user's role
equals the required role's value or is "admin", and fails with 403 iff it
is neither; in particular an admin passes every role requirement. -/
theorem require_role_spec (required : UserRole) (u : UserRow)
    (hactive : u.status = "active") :
    (require_role required u = .ok u ↔
      (u.role = required.value ∨ u.role = "admin")) ∧
    (require_role required u = .error .forbidden ↔
      (u.role ≠ required.value ∧ u.role ≠ "admin")) ∧
    (u.role = "admin" → require_role required u = .ok u) := by
  by_cases h1 : u.role = required.value <;> by_cases h2 : u.role = "admin" <;>
    simp [require_role, get_current_active_user, hactive, h1, h2]

/-- Witness for C9: the admin "root" passes a moderator-only requirement. -/
theorem require_role_spec_witness :
    rootRow.status = "active" ∧
    require_role UserRole.moderator rootRow = .ok rootRow :=
  ⟨rfl, (require_role_spec UserRole.moderator rootRow rfl).2.2 rfl⟩

/-- Closed form of the SET clause `UserService.update_user` applies to a
matching row: provided fields are overwritten, `updated_at` becomes `now`,
everything else is kept. -/
lemma user_update_apply (u : UserUpdate) (now : Nat) (r : UserRow) :
    (user_update_fields u ++ [UserCol.updated_at now]).foldl setUserCol r
      = { r with
          username := u.username.getD r.username
          email := u.email.getD r.email
          full_name := match u.full_name with
            | some v => some v
            | none => r.full_name
          role := (u.role.map UserRole.value).getD r.role
          status := (u.status.map UserStatus.value).getD r.status
          updated_at := some now } := by
  obtain ⟨ou, oe, of, orl, os⟩ := u
  cases ou <;> cases oe <;> cases of <;> cases orl <;> cases os <;>
    simp [user_update_fields, setUserCol]

/-- Counterexample to C7 as stated: updating only the username at time 99
also changes the stored `updated_at` column (from `some 5` to `some 99`),
so a column not provided in the payload does not keep its previous value. -/
theorem update_user_frame_counterexample :
    update_user [neoRow] 3 neoPayload 99
      = .ok [{ neoRow with username := "neo", updated_at := some 99 }] ∧
    ({ neoRow with username := "neo", updated_at := some 99 }).updated_at
      ≠ neoRow.updated_at := by
  constructor
  · rfl
  · decide

/-- Closed form of the SET clause `ArticleService.update_article` applies
to a matching row. -/
lemma article_update_apply (u : ArticleUpdate) (now : Nat) (a : ArticleRow) :
    (article_update_fields u ++ [ArticleCol.updated_at now]).foldl setArticleCol a
      = { a with
          title := u.title.getD a.title
          content := u.content.getD a.content
          summary := match u.summary with
            | some v => some v
            | none => a.summary
          tags := match u.tags with
            | some v => some (jsonDumps v)
            | none => a.tags
          is_published := u.is_published.getD a.is_published
          updated_at := some now } := by
  obtain ⟨ot, oc, os, otg, op⟩ := u
  cases ot <;> cases oc <;> cases os <;> cases otg <;> cases op <;>
    simp [article_update_fields, setArticleCol]

/-- C7 (amended): in a partial update of a user or an article, only the
fields provided in the payload and the `updated_at` timestamp change; every
other stored column of the matching row keeps its previous value, rows with
a different id are untouched, and a payload providing no fields fails with
the validation error before any UPDATE is issued, leaving the stored data
unchanged. -/
theorem update_frame_spec :
    (∀ (db : List UserRow) (user_id : Nat) (u : UserUpdate) (now : Nat),
      (user_update_fields u = [] →
          update_user db user_id u now = .error .validation) ∧
      (∀ db2, update_user db user_id u now = .ok db2 →
        List.Forall₂ (fun r r2 =>
          (r.id ≠ user_id → r2 = r) ∧
          (r.id = user_id →
            r2.id = r.id ∧ r2.password_hash = r.password_hash ∧
            r2.is_active = r.is_active ∧ r2.created_at = r.created_at ∧
            (u.username = none → r2.username = r.username) ∧
            (u.email = none → r2.email = r.email) ∧
            (u.full_name = none → r2.full_name = r.full_name) ∧
            (u.role = none → r2.role = r.role) ∧
            (u.status = none → r2.status = r.status) ∧
            r2.updated_at = some now)) db db2)) ∧
    (∀ (adb : List ArticleRow) (udb : List UserRow) (article_id : Nat)
        (u : ArticleUpdate) (user_id now : Nat),
      (article_update_fields u = [] →
          ∀ article, fetch_article adb article_id = some article →
          article_permission article udb user_id = .ok () →
          update_article adb udb article_id u user_id now
            = .error .validation) ∧
      (∀ adb2, update_article adb udb article_id u user_id now = .ok adb2 →
        List.Forall₂ (fun a a2 =>
          (a.id ≠ article_id → a2 = a) ∧
          (a.id = article_id →
            a2.id = a.id ∧ a2.author_id = a.author_id ∧
            a2.view_count = a.view_count ∧ a2.created_at = a.created_at ∧
            (u.title = none → a2.title = a.title) ∧
            (u.content = none → a2.content = a.content) ∧
            (u.summary = none → a2.summary = a.summary) ∧
            (u.tags = none → a2.tags = a.tags) ∧
            (u.is_published = none → a2.is_published = a.is_published) ∧
            a2.updated_at = some now)) adb adb2)) := by
  constructor
  · intro db user_id u now
    constructor
    · intro h
      simp [update_user, h]
    · intro db2 h2
      rw [update_user] at h2
      cases hE : (user_update_fields u).isEmpty with
      | true => simp [hE] at h2
      | false =>
        simp only [hE, Bool.false_eq_true, if_false, Except.ok.injEq] at h2
        subst h2
        induction db with
        | nil => exact List.Forall₂.nil
        | cons r tl ih =>
          simp only [List.map_cons]
          refine List.Forall₂.cons ?_ ih
          by_cases hid : r.id = user_id
          · rw [if_pos hid, user_update_apply]
            simp +contextual [hid]
          · simp +contextual [hid]
  · intro adb udb article_id u user_id now
    constructor
    · intro h article hfetch hperm
      simp [update_article, hfetch, hperm, h]
    · intro adb2 h2
      rw [update_article] at h2
      cases hf : fetch_article adb article_id with
      | none => simp [hf] at h2
      | some article =>
        cases hp : article_permission article udb user_id with
        | error e => simp [hf, hp] at h2
        | ok u0 =>
          cases hE : (article_update_fields u).isEmpty with
          | true => simp [hf, hp, hE] at h2
          | false =>
            simp only [hf, hp, hE, Bool.false_eq_true, if_false,
              Except.ok.injEq] at h2
            subst h2
            clear hf
            induction adb with
            | nil => exact List.Forall₂.nil
            | cons a tl ih =>
              simp only [List.map_cons]
              refine List.Forall₂.cons ?_ ih
              by_cases hid : a.id = article_id
              · rw [if_pos hid, article_update_apply]
                simp +contextual [hid]
              · simp +contextual [hid]

/-- Witness for C7 (amended): an empty payload is rejected with the
validation error. -/
theorem update_frame_spec_witness :
    user_update_fields emptyUserPayload = [] ∧
    update_user [bobRow] 1 emptyUserPayload 50 = .error SvcErr.validation :=
  ⟨rfl, (update_frame_spec.1 [bobRow] 1 emptyUserPayload 50).1 rfl⟩

/-- Counterexample to C8 as stated: serving a successful registration runs
a password-hash step on the event loop and no step of the request on a
worker thread, and a successful login likewise hashes on the event loop —
so not every hashing invocation is offloaded to the thread pool. -/
theorem hashing_offload_counterexample :
    Step.hash ExecLoc.eventLoop ∈ create_user_trace false ∧
    Step.hash ExecLoc.workerThread ∉ create_user_trace false ∧
    Step.hash ExecLoc.eventLoop ∈ authenticate_user_trace true ∧
    Step.hash ExecLoc.workerThread ∉ authenticate_user_trace true := by
  refine ⟨?_, ?_, ?_, ?_⟩ <;> decide

/-- C8 (amended): every password-hashing step of `create_user` and
`authenticate_user` executes on the event-loop thread — the worker-thread
offload helper `run_in_thread` exists and would place such work on a
worker thread, but no hashing call site uses it. -/
theorem hashing_runs_on_event_loop :
    (∀ (b : Bool) (loc : ExecLoc),
        Step.hash loc ∈ create_user_trace b → loc = ExecLoc.eventLoop) ∧
    (∀ (b : Bool) (loc : ExecLoc),
        Step.hash loc ∈ authenticate_user_trace b → loc = ExecLoc.eventLoop) ∧
    run_in_thread_step = Step.hash ExecLoc.workerThread := by
  refine ⟨?_, ?_, rfl⟩ <;>
    (intro b loc h
     cases b <;> simp [create_user_trace, authenticate_user_trace] at h
     all_goals simp [h])

/-- Witness for C8 (amended): the hash step of a successful registration is
on the event loop, and the theorem applies to it. -/
theorem hashing_runs_on_event_loop_witness :
    Step.hash ExecLoc.eventLoop ∈ create_user_trace false ∧
    ExecLoc.eventLoop = ExecLoc.eventLoop :=
  ⟨by decide, hashing_runs_on_event_loop.1 false ExecLoc.eventLoop (by decide)⟩

end FastapiExample
